import Mathlib

/-!
Shallow embedding of the native bootstrap sequence of the Tax Free RDC
desktop application (src/frontend/src-tauri/src/lib.rs).

The source is a single Rust function `run()` that builds a Tauri
application: it registers six capability plugins on a default builder
(shell, process, dialog, notification, http, and a log plugin whose
builder is configured with `level(log::LevelFilter::Info)`), installs a
setup callback that looks up the webview window labelled "main" and
issues a best-effort focus request on it (discarding the result with
`.ok()`), then calls `.run(tauri::generate_context!())` and `.expect`s
the result with a fixed French diagnostic message.

The host framework (tauri) and the standard library (`Result::expect`,
the `log` crate's level filtering) are external collaborators; their
observable contract, as the spec describes it, is embedded here as the
semantics against which the bootstrap code is interpreted:
plugins initialize strictly in registration order, then the setup hook
runs once, then the blocking event loop services external events until
termination; if the run loop cannot start, `.run` returns an error and
`.expect` turns it into a panic (non-zero process exit).  Outcomes the
operating system decides (can the run loop start, does the window
system grant a focus request, how many external events arrive) are an
explicit `Env` oracle; the ambient process inputs `run()` could have
read but does not (environment variables, arguments, configuration
files) are carried in `Env` as well so that independence from them is
a provable statement.
-/

namespace TaxFreeRdc

/-- Severity filter of the `log` crate (`log::LevelFilter`): `off` allows
nothing; otherwise a record passes when its level is at most the filter
in the crate's numeric order. -/
inductive LevelFilter
| off
| error
| warn
| info
| debug
| trace
deriving DecidableEq, Repr

/-- Numeric order of `log::LevelFilter` as in the `log` crate
(Off = 0, Error = 1, Warn = 2, Info = 3, Debug = 4, Trace = 5). -/
def LevelFilter.toNat : LevelFilter → Nat
| LevelFilter.off => 0
| LevelFilter.error => 1
| LevelFilter.warn => 2
| LevelFilter.info => 3
| LevelFilter.debug => 4
| LevelFilter.trace => 5

/-- Severity of one log record (`log::Level`); smaller number = more severe. -/
inductive Level
| error
| warn
| info
| debug
| trace
deriving DecidableEq, Repr

/-- Numeric order of `log::Level` as in the `log` crate
(Error = 1, Warn = 2, Info = 3, Debug = 4, Trace = 5). -/
def Level.toNat : Level → Nat
| Level.error => 1
| Level.warn => 2
| Level.info => 3
| Level.debug => 4
| Level.trace => 5

/-- The `log` crate's filtering contract: a record is enabled exactly when
its level does not exceed the configured maximum level filter. -/
def logEnabled (maxLevel : LevelFilter) (l : Level) : Bool :=
decide (l.toNat ≤ maxLevel.toNat)

/-- One log record submitted by application code to the logging plugin. -/
structure LogRecord where
  level : Level
  message : String
deriving DecidableEq, Repr

/-- What the logging plugin, configured with `maxLevel`, forwards to the
host's logging sink out of a stream of submitted records. -/
def logPluginProcess (maxLevel : LevelFilter) (records : List LogRecord) : List LogRecord :=
records.filter (fun r => logEnabled maxLevel r.level)

/-- The capability plugins registered in lib.rs, each the value of the
corresponding `init()` call; the log plugin carries its configured
maximum level filter. -/
inductive Plugin
| shell
| process
| dialog
| notification
| http
| log (maxLevel : LevelFilter)
deriving DecidableEq, Repr

/-- Builder of the log plugin (`tauri_plugin_log::Builder`): the only
configuration the source touches is the maximum level filter. Its
default maximum level is `Trace` (everything enabled). -/
structure LogPluginBuilder where
  maxLevel : LevelFilter
deriving DecidableEq, Repr

/-- Model of `tauri_plugin_log::Builder::default()`. -/
def LogPluginBuilder.default : LogPluginBuilder :=
{ maxLevel := LevelFilter.trace }

/-- Model of `tauri_plugin_log::Builder::level(filter)`. -/
def LogPluginBuilder.level (b : LogPluginBuilder) (f : LevelFilter) : LogPluginBuilder :=
{ b with maxLevel := f }

/-- Model of `tauri_plugin_log::Builder::build()`. -/
def LogPluginBuilder.build (b : LogPluginBuilder) : Plugin :=
Plugin.log b.maxLevel

/-- A webview window of the running application, identified by its label. -/
structure WebviewWindow where
  label : String
  focused : Bool
deriving DecidableEq, Repr

/-- Application handle state visible to the bootstrap layer: the windows
the host framework manages, plus the log of focus requests issued to the
window system (the observable OS calls made by the setup hook). -/
structure App where
  windows : List WebviewWindow
  focusRequests : List String
deriving DecidableEq, Repr

/-- Model of `Manager::get_webview_window(label)`: the window with the
given label, if one exists. -/
def App.get_webview_window (app : App) (label : String) : Option WebviewWindow :=
app.windows.find? (fun w => w.label == label)

/-- The oracle for everything the host framework and the operating system
decide, plus the ambient process inputs `run()` could have read.
`runLoopStarts` is whether the framework can start the run loop (generate
its context, acquire OS resources, bind to the windowing system);
`startupError` the opaque error it reports when it cannot;
`initialWindows` the windows the static context creates;
`focusGranted` whether the window system grants a focus request;
`externalEvents` how many external events the run loop services before
the application terminates; `envVars`, `args` and `configFiles` are the
process environment, command-line arguments and on-disk configuration,
which the bootstrap layer never reads. -/
structure Env where
  runLoopStarts : Bool
  startupError : String
  initialWindows : List WebviewWindow
  focusGranted : Bool
  externalEvents : Nat
  envVars : List (String × String)
  args : List String
  configFiles : List (String × String)
deriving DecidableEq, Repr

/-- Mark the window with the given label (if any) focused. -/
def App.focusWindow (app : App) (label : String) : App :=
{ app with windows := app.windows.map (fun w => if w.label == label then { w with focused := true } else w) }

/-- Model of `WebviewWindow::set_focus()`: the request is issued to the
window system (recorded in `focusRequests`) in every case; it succeeds,
and the window becomes focused, exactly when the window system grants
it, and otherwise returns an error.  The state change and the returned
`Result` are separate, as in Rust, so that discarding the `Result` with
`.ok()` does not undo the request. -/
def WebviewWindow.set_focus (w : WebviewWindow) (env : Env) (app : App) : App × Except String Unit :=
let requested : App := { app with focusRequests := app.focusRequests ++ [w.label] }
if env.focusGranted then
  (requested.focusWindow w.label, Except.ok ())
else
  (requested, Except.error "the window system refused the focus request")

/-- The label the setup closure looks up. -/
def mainLabel : String := "main"

/-- The setup closure of lib.rs lines 16-22, verbatim: look up the webview
window labelled "main"; if it exists call `set_focus` and discard the
result with `.ok()`; in every case return `Ok(())`. -/
def setupHook (env : Env) (app : App) : App × Except String Unit :=
match app.get_webview_window mainLabel with
| some window =>
    let r := window.set_focus env app
    (r.1, Except.ok ())
| none => (app, Except.ok ())

/-- The static application context (`tauri::generate_context!()`): icons,
identifiers and permissions supplied externally as compile-time data; the
bootstrap layer neither reads nor computes anything from it. -/
structure Context where
deriving DecidableEq, Repr

/-- Model of `tauri::generate_context!()`. -/
def generate_context : Context := {}

/-- The Tauri application builder as the bootstrap layer uses it: the
ordered list of registered plugins and the optional setup hook. -/
structure Builder where
  plugins : List Plugin
  setupHook : Option (Env → App → App × Except String Unit)

/-- Model of `tauri::Builder::default()`: no plugins, no setup hook. -/
def Builder.default : Builder :=
{ plugins := [], setupHook := none }

/-- Model of `Builder::plugin(p)`: append `p` to the registration order. -/
def Builder.plugin (b : Builder) (p : Plugin) : Builder :=
{ b with plugins := b.plugins ++ [p] }

/-- Model of `Builder::setup(hook)`: install the setup hook. -/
def Builder.setup (b : Builder) (h : Env → App → App × Except String Unit) : Builder :=
{ b with setupHook := some h }

/-- Observable events of one application lifetime, in the order they
happen: each plugin's initialization, the one run of the setup hook, and
each external event the run loop services. -/
inductive Event
| pluginInitialized (p : Plugin)
| setupRan
| eventServiced (n : Nat)
deriving DecidableEq, Repr

/-- What `Builder::run(context)` produces over a whole application
lifetime: the event trace, the final application state when startup
succeeded, and `Except.error` exactly when the run loop failed to start
(the `Result` that lib.rs `.expect`s). -/
structure RunOutput where
  trace : List Event
  finalApp : Option App
  result : Except String Unit
deriving Repr

/-- The host framework's run contract, as the spec states it: if the run
loop cannot start, `Builder::run` returns the framework's error and
nothing of the application comes up; otherwise the plugins initialize
strictly in registration order, then the setup hook runs exactly once on
the freshly built application, and (since it returns `Ok`) the blocking
run loop services the external events until termination, after which
`run` returns `Ok`. -/
def Builder.run (b : Builder) (_ctx : Context) (env : Env) : RunOutput :=
if env.runLoopStarts then
  let app0 : App := { windows := env.initialWindows, focusRequests := [] }
  let initTrace := b.plugins.map Event.pluginInitialized
  match b.setupHook with
  | some h =>
      let s := h env app0
      match s.2 with
      | Except.ok _ =>
          { trace := initTrace ++ Event.setupRan :: (List.range env.externalEvents).map Event.eventServiced
            finalApp := some s.1
            result := Except.ok () }
      | Except.error e =>
          { trace := initTrace ++ [Event.setupRan]
            finalApp := none
            result := Except.error e }
  | none =>
      { trace := initTrace ++ (List.range env.externalEvents).map Event.eventServiced
        finalApp := some app0
        result := Except.ok () }
else
  { trace := [], finalApp := none, result := Except.error env.startupError }

/-- The fixed diagnostic message lib.rs passes to `.expect`. -/
def launchErrorMsg : String := "Erreur lors du lancement de l\'application Tax Free RDC"

/-- How the process ends: normal termination of the run loop, or a Rust
panic carrying the diagnostic message. -/
inductive ExitKind
| normal
| panicked (msg : String)
deriving DecidableEq, Repr

/-- The process exit status: 0 on normal termination, the Rust panic
status (non-zero, 101) when the process panicked. -/
def ExitKind.exitCode : ExitKind → Nat
| ExitKind.normal => 0
| ExitKind.panicked _ => 101

/-- One whole process execution as observed from outside: the event trace
and how the process ended. -/
structure ProcessResult where
  trace : List Event
  exit : ExitKind
deriving Repr

/-- The builder value `run()` constructs (lib.rs lines 5-22): the default
builder, the six plugins in source order — the log plugin built from its
default builder with `level(Info)` — and the setup closure.  It takes the
ambient process state as an argument precisely to record that the source
never reads it. -/
def configure (_env : Env) : Builder :=
Builder.default
  |>.plugin Plugin.shell
  |>.plugin Plugin.process
  |>.plugin Plugin.dialog
  |>.plugin Plugin.notification
  |>.plugin Plugin.http
  |>.plugin ((LogPluginBuilder.default.level LevelFilter.info).build)
  |>.setup setupHook

/-- The whole of `run()` (lib.rs lines 4-25): build the configured
builder, call `Builder::run(generate_context!())`, and `.expect` the
result — on `Ok` the call has blocked for the whole application lifetime
and the process then ends normally; on `Err e` the process panics with
the fixed French message joined to the underlying error, as
`Result::expect` formats it. -/
def run (env : Env) : ProcessResult :=
let out := (configure env).run generate_context env
match out.result with
| Except.ok _ => { trace := out.trace, exit := ExitKind.normal }
| Except.error e => { trace := out.trace, exit := ExitKind.panicked (launchErrorMsg ++ ": " ++ e) }

/-- Shared fact: the setup closure returns `Ok(())` on every input. -/
theorem setupHook_snd (env : Env) (app : App) : (setupHook env app).2 = Except.ok () := by
unfold setupHook
cases h : app.get_webview_window mainLabel <;> simp

/-- Shared fact: the trace of a successful execution. -/
theorem run_trace_of_starts (env : Env) (h : env.runLoopStarts = true) :
    (run env).trace =
      [Plugin.shell, Plugin.process, Plugin.dialog, Plugin.notification, Plugin.http,
        Plugin.log LevelFilter.info].map Event.pluginInitialized
      ++ Event.setupRan :: (List.range env.externalEvents).map Event.eventServiced ∧
    (run env).exit = ExitKind.normal := by
have h2 := setupHook_snd env { windows := env.initialWindows, focusRequests := [] }
unfold run configure Builder.run Builder.default Builder.plugin Builder.setup
simp only [h, if_true]
simp [h2, LogPluginBuilder.build, LogPluginBuilder.level, LogPluginBuilder.default]

/-- Shared fact: the result of a failed start. -/
theorem run_of_no_start (env : Env) (h : env.runLoopStarts = false) :
    run env = { trace := [], exit := ExitKind.panicked (launchErrorMsg ++ ": " ++ env.startupError) } := by
unfold run configure Builder.run
simp [h]

/-- Concrete environment in which the run loop fails to start. -/
def envNoStart : Env :=
{ runLoopStarts := false
  startupError := "webview2 runtime not found"
  initialWindows := []
  focusGranted := true
  externalEvents := 0
  envVars := []
  args := []
  configFiles := [] }

/-- Concrete environment in which the run loop starts, a window labelled
"main" exists, and two external events are serviced. -/
def envStart : Env :=
{ runLoopStarts := true
  startupError := ""
  initialWindows := [{ label := "main", focused := false }]
  focusGranted := true
  externalEvents := 2
  envVars := [("HOME", "/home/user")]
  args := ["taxfree-rdc"]
  configFiles := [("tauri.conf.json", "…")] }

/-- Concrete application state with no window labelled "main". -/
def appNoMain : App :=
{ windows := [{ label := "settings", focused := false }], focusRequests := [] }

/-- C1: if the run loop fails to start, `run()` panics at once with the
fixed localized diagnostic joined to the underlying error — a plain
string, no structured code — the process exit status is non-zero, and
the trace is empty: no plugin came up, no setup ran, no event was
serviced, so there is no retry, no degraded mode and no partial
startup. -/
theorem launch_failure_is_fatal (env : Env) (h : env.runLoopStarts = false) :
    (run env).exit = ExitKind.panicked (launchErrorMsg ++ ": " ++ env.startupError) ∧
    (run env).exit.exitCode ≠ 0 ∧
    (run env).trace = [] := by
rw [run_of_no_start env h]
refine ⟨rfl, ?_, rfl⟩
simp [ExitKind.exitCode]

/-- Witness for C1 at a concrete failing environment. -/
theorem launch_failure_is_fatal_witness :
    (run envNoStart).exit
        = ExitKind.panicked (launchErrorMsg ++ ": " ++ envNoStart.startupError) ∧
    (run envNoStart).exit.exitCode ≠ 0 ∧
    (run envNoStart).trace = [] :=
launch_failure_is_fatal envNoStart rfl

/-- C2: the builder `run()` constructs registers exactly six plugins, in
source order: shell, process, dialog, notification, http, and the log
plugin configured with the `Info` level filter. -/
theorem plugins_exactly_six_in_order (env : Env) :
    (configure env).plugins =
      [Plugin.shell, Plugin.process, Plugin.dialog, Plugin.notification, Plugin.http,
        Plugin.log LevelFilter.info] := rfl

/-- C3: on every environment and application state the setup closure
returns `Ok(())` — it cannot fail the startup sequence, and in
particular a failed focus request is discarded, not propagated; when no
window labelled "main" exists it does nothing at all; when one exists, a
focus request on "main" is issued to the window system whether or not
the window system grants it. -/
theorem setup_callback_contract (env : Env) (app : App) :
    (setupHook env app).2 = Except.ok () ∧
    (app.get_webview_window mainLabel = none → setupHook env app = (app, Except.ok ())) ∧
    (∀ w, app.get_webview_window mainLabel = some w →
      (setupHook env app).1.focusRequests = app.focusRequests ++ [mainLabel]) := by
refine ⟨setupHook_snd env app, ?_, ?_⟩
· intro h
  unfold setupHook
  rw [h]
· intro w hw
  have hl : w.label = mainLabel := by
    have := List.find?_some hw
    simpa using this
  unfold setupHook
  rw [hw]
  simp only [WebviewWindow.set_focus, App.focusWindow, hl]
  cases hg : env.focusGranted <;> simp

/-- C4: the log plugin in the configured builder carries the `Info`
maximum level filter, and under that filter a record reaches the host's
sink exactly when it was submitted and its severity is informational or
higher (numeric level at most `Info`'s); records below informational
severity (debug, trace) are dropped. -/
theorem log_filter_informational (env : Env) (records : List LogRecord) (r : LogRecord) :
    Plugin.log LevelFilter.info ∈ (configure env).plugins ∧
    (r ∈ logPluginProcess LevelFilter.info records ↔
      r ∈ records ∧ r.level.toNat ≤ Level.info.toNat) := by
constructor
· show Plugin.log LevelFilter.info ∈
    [Plugin.shell, Plugin.process, Plugin.dialog, Plugin.notification, Plugin.http,
      Plugin.log LevelFilter.info]
  simp
· unfold logPluginProcess logEnabled
  simp [List.mem_filter, LevelFilter.toNat, Level.toNat]

/-- C5: whenever the run loop starts, the lifetime trace is the six
plugin initializations in registration order, then the one run of the
setup hook, then the serviced external events: plugin registration
completes in full before the setup callback, the setup callback occurs
exactly once, and it precedes every event the run loop services. -/
theorem plugins_then_setup_then_events (env : Env) (h : env.runLoopStarts = true) :
    (run env).trace =
      [Plugin.shell, Plugin.process, Plugin.dialog, Plugin.notification, Plugin.http,
        Plugin.log LevelFilter.info].map Event.pluginInitialized
      ++ Event.setupRan :: (List.range env.externalEvents).map Event.eventServiced ∧
    (run env).trace.count Event.setupRan = 1 := by
obtain ⟨ht, _⟩ := run_trace_of_starts env h
refine ⟨ht, ?_⟩
rw [ht]
simp [List.count_append, List.count_cons, List.count_eq_zero, List.mem_map]

/-- Witness for C5 at a concrete starting environment. -/
theorem plugins_then_setup_then_events_witness :
    (run envStart).trace =
      [Plugin.shell, Plugin.process, Plugin.dialog, Plugin.notification, Plugin.http,
        Plugin.log LevelFilter.info].map Event.pluginInitialized
      ++ Event.setupRan :: (List.range envStart.externalEvents).map Event.eventServiced ∧
    (run envStart).trace.count Event.setupRan = 1 :=
plugins_then_setup_then_events envStart rfl

/-- C6: `run()` reads none of the ambient process inputs — replacing the
environment variables, the command-line arguments and the on-disk
configuration files changes nothing about its whole observable
execution. -/
theorem run_reads_no_process_inputs (env : Env) (vs : List (String × String))
    (a : List String) (cf : List (String × String)) :
    run { env with envVars := vs, args := a, configFiles := cf } = run env := by
cases env
rfl

/-- C7: whenever the run loop starts, the call blocks for the whole
application lifetime — it returns only after every external event of the
lifetime has been serviced (each appears in the returned trace) — and
then the process ends normally. -/
theorem run_blocks_until_termination (env : Env) (h : env.runLoopStarts = true) :
    (run env).exit = ExitKind.normal ∧
    (∀ n, n < env.externalEvents → Event.eventServiced n ∈ (run env).trace) := by
obtain ⟨ht, he⟩ := run_trace_of_starts env h
refine ⟨he, ?_⟩
intro n hn
rw [ht]
simp only [List.mem_append, List.mem_cons, List.mem_map, List.mem_range]
right
right
exact ⟨n, hn, rfl⟩

/-- Witness for C7 at a concrete starting environment with two external
events. -/
theorem run_blocks_until_termination_witness :
    (run envStart).exit = ExitKind.normal ∧
    (∀ n, n < envStart.externalEvents → Event.eventServiced n ∈ (run envStart).trace) :=
run_blocks_until_termination envStart rfl

/-- C8: the builder configuration is deterministic — any two ambient
process states yield the same builder value: the same six plugins in the
same order, the same log level filter inside the log plugin, and the
same setup hook. -/
theorem configure_deterministic (e₁ e₂ : Env) : configure e₁ = configure e₂ := rfl

/-- C9: the setup closure's only effect is the optional focus request: it
never creates, destroys or relabels a window (the label sequence is
unchanged on every input), and when the lookup of "main" fails the
application state after the closure is exactly the state before it, with
the `Ok(())` result. -/
theorem setup_frame (env : Env) (app : App) :
    (setupHook env app).1.windows.map WebviewWindow.label = app.windows.map WebviewWindow.label ∧
    (app.get_webview_window mainLabel = none → setupHook env app = (app, Except.ok ())) := by
constructor
· unfold setupHook
  cases h : app.get_webview_window mainLabel
  · rfl
  · simp only [WebviewWindow.set_focus, App.focusWindow]
    cases hg : env.focusGranted
    · simp
    · simp only [if_true]
      rw [List.map_map]
      apply List.map_congr_left
      intro w _
      simp only [Function.comp]
      split <;> rfl
· intro h
  unfold setupHook
  rw [h]

/-- C10: the fixed French diagnostic joined to the underlying framework
error is the one and only abnormal outcome of `run()`: every execution
either ends normally or panics with exactly that message — no other code
path panics or emits a diagnostic. -/
theorem panic_message_unique (env : Env) :
    (run env).exit = ExitKind.normal ∨
    (run env).exit = ExitKind.panicked
      ("Erreur lors du lancement de l\'application Tax Free RDC" ++ ": " ++ env.startupError) := by
cases h : env.runLoopStarts
· right
  rw [run_of_no_start env h]
  rfl
· left
  exact (run_trace_of_starts env h).2

end TaxFreeRdc
